import Mathlib

/-!
Shallow embedding of the task-service microservice
(`src/task-service/app/main.py` plus its persistence layer), with proofs of
the specification's claims about it.

The repository ships `main.py` (route handlers, identity extraction, startup
retry loop, health check) and `config.py`.  The modules `crud`, `models`,
`schemas` and `database` that `main.py` imports are not present in the
sources; their behaviour is modelled from the specification's description of
the persistence access layer and marked `Modelled from the spec:` below.
-/

namespace TaskService

/-- Equality of `Except` outcomes is decidable when it is on both sides. -/
instance exceptDecEq {ε α : Type} [DecidableEq ε] [DecidableEq α] :
    DecidableEq (Except ε α) := fun a b =>
  match a, b with
  | .ok x, .ok y =>
    if h : x = y then .isTrue (by rw [h]) else .isFalse (by simp [h])
  | .error x, .error y =>
    if h : x = y then .isTrue (by rw [h]) else .isFalse (by simp [h])
  | .ok _, .error _ => .isFalse (by simp)
  | .error _, .ok _ => .isFalse (by simp)

/-- An HTTP error as raised by `fastapi.HTTPException`: a status code and a
detail string. -/
structure HTTPError where
  status_code : Nat
  detail : String
deriving DecidableEq, Repr

/-- A Python exception escaping a handler body: either a structured
`HTTPException` or any other exception, of which we keep only its message. -/
inductive PyExc where
  | http : HTTPError → PyExc
  | exc : String → PyExc
deriving DecidableEq, Repr

/-- Modelled from the spec: the sole entity, one row of the `tasks` table
(`models.Task`, absent from the sources).  `id` is assigned by the
persistence layer on creation and immutable; `owner_id` is the creating
caller's identity and immutable; `title`, `description`, `status` are the
mutable descriptive fields. -/
structure Task where
  id : Int
  owner_id : Int
  title : String
  description : String
  status : String
deriving DecidableEq, Repr

/-- Modelled from the spec: the create payload (`schemas.TaskCreate`, absent
from the sources): title/description/status, no id or owner. -/
structure TaskCreate where
  title : String
  description : String
  status : String
deriving DecidableEq, Repr

/-- Modelled from the spec: the partial-update payload (`schemas.TaskUpdate`,
absent from the sources): every field optional; an omitted field is `none`. -/
structure TaskUpdate where
  title : Option String
  description : Option String
  status : Option String
deriving DecidableEq, Repr

/-- Modelled from the spec: the persistence store backing the `tasks` table —
the current rows plus the next id the persistence layer will generate. -/
structure DB where
  tasks : List Task
  nextId : Int
deriving DecidableEq, Repr

/-- Strip leading and trailing whitespace, as Python's `str.strip` inside
`int()` does. -/
def pyStrip (cs : List Char) : List Char :=
  ((cs.dropWhile Char.isWhitespace).reverse.dropWhile Char.isWhitespace).reverse

/-- Digit run of a Python integer literal after an optional sign: decimal
digits with single underscores allowed only between digits (`pyDigits`
handles the first character, `pyDigitsGo` the rest). -/
def pyDigitsGo : Nat → List Char → Option Nat
  | acc, [] => some acc
  | acc, c :: cs =>
    if c.isDigit then pyDigitsGo (10 * acc + (c.toNat - 48)) cs
    else if c = '_' then
      match cs with
      | [] => none
      | d :: ds => if d.isDigit then pyDigitsGo (10 * acc + (d.toNat - 48)) ds else none
    else none

/-- See `pyDigitsGo`; the run must start with a digit. -/
def pyDigits : List Char → Option Nat
  | [] => none
  | c :: cs => if c.isDigit then pyDigitsGo (c.toNat - 48) cs else none

/-- Python's built-in `int(str)` conversion used at `main.py:55` (ASCII
digits): strip surrounding whitespace, then an optional sign followed by a
nonempty digit run; `none` models the `ValueError` raised otherwise. -/
def pyIntParse (s : String) : Option Int :=
  match pyStrip s.data with
  | '+' :: cs => (pyDigits cs).map (fun n => (n : Int))
  | '-' :: cs => (pyDigits cs).map (fun n => -(n : Int))
  | cs => (pyDigits cs).map (fun n => (n : Int))

/-- `get_user_id_from_header` (`main.py:48`): the `X-User-Id` dependency.
`if not x_user_id` is Python truthiness, false for both `None` and the empty
string → 401; a value that `int()` rejects → 400; otherwise the parsed
integer is the caller identity. -/
def get_user_id_from_header (x_user_id : Option String) : Except HTTPError Int :=
  match x_user_id with
  | none => .error ⟨401, "User ID not provided"⟩
  | some s =>
    if s.isEmpty then .error ⟨401, "User ID not provided"⟩
    else
      match pyIntParse s with
      | some n => .ok n
      | none => .error ⟨400, "Invalid user ID"⟩

example : pyIntParse "12" = some 12 := rfl
example : pyIntParse " -3 " = some (-3) := rfl
example : pyIntParse "1_0" = some 10 := rfl
example : pyIntParse "" = none := rfl
example : pyIntParse "abc" = none := rfl
example : pyIntParse "+7" = some 7 := rfl
example : pyIntParse "1_" = none := rfl
example : pyIntParse "_1" = none := rfl
example : get_user_id_from_header (some "") = .error ⟨401, "User ID not provided"⟩ := rfl
example : get_user_id_from_header none = .error ⟨401, "User ID not provided"⟩ := rfl
example : get_user_id_from_header (some "5") = .ok 5 := rfl

/-- Modelled from the spec: `crud.get_task` — select the row of the `tasks`
table with the given id, if any. -/
def crudGetTask (db : DB) (task_id : Int) : Option Task :=
  db.tasks.find? (fun t => t.id == task_id)

/-- Modelled from the spec: `crud.create_task` — insert a new row with a
generated id and owner equal to the creating caller; returns the created row
and the new store. -/
def crudCreateTask (db : DB) (payload : TaskCreate) (user_id : Int) : Task × DB :=
  let t : Task := ⟨db.nextId, user_id, payload.title, payload.description, payload.status⟩
  (t, ⟨db.tasks ++ [t], db.nextId + 1⟩)

/-- Modelled from the spec: applying a partial update — each supplied field
replaces the prior value, each omitted field keeps it; id and owner are
untouched. -/
def applyUpdate (t : Task) (u : TaskUpdate) : Task :=
  ⟨t.id, t.owner_id, u.title.getD t.title, u.description.getD t.description,
   u.status.getD t.status⟩

/-- Modelled from the spec: `crud.update_task` — apply the partial payload to
the row with the given id; `none` when no such row exists. -/
def crudUpdateTask (db : DB) (task_id : Int) (u : TaskUpdate) : Option (Task × DB) :=
  match crudGetTask db task_id with
  | none => none
  | some t =>
    let t2 := applyUpdate t u
    some (t2, ⟨db.tasks.map (fun s => if s.id == task_id then t2 else s), db.nextId⟩)

/-- Modelled from the spec: `crud.delete_task` — remove the row with the
given id. -/
def crudDeleteTask (db : DB) (task_id : Int) : DB :=
  ⟨db.tasks.filter (fun t => t.id != task_id), db.nextId⟩

/-- Modelled from the spec: `crud.get_user_tasks` — the caller's rows only,
in store order, sliced by skip/limit (SQL offset/limit). -/
def crudGetUserTasks (db : DB) (user_id : Int) (skip limit : Nat) : List Task :=
  (((db.tasks.filter (fun t => t.owner_id == user_id)).drop skip).take limit)

/-- The uniform `except HTTPException: raise / except Exception: ... raise
HTTPException(500, "Internal server error")` boundary wrapped around every
handler body in `main.py`. -/
def handlerBoundary {α : Type} (r : Except PyExc α) : Except HTTPError α :=
  match r with
  | .ok a => .ok a
  | .error (.http e) => .error e
  | .error (.exc _) => .error ⟨500, "Internal server error"⟩

/-- Body of `get_task` (`main.py:99`–`105`), abstracted over the outcome of
the awaited `crud.get_task` call (`.error` models that call raising an
arbitrary non-HTTP exception): 404 when absent, 403 when the owner differs,
otherwise the task. -/
def get_task_body (lookup : Except String (Option Task)) (user_id : Int) :
    Except PyExc Task :=
  match lookup with
  | .error s => .error (.exc s)
  | .ok none => .error (.http ⟨404, "Task not found"⟩)
  | .ok (some task) =>
    if task.owner_id != user_id then
      .error (.http ⟨403, "Not authorized to access this task"⟩)
    else .ok task

/-- `get_task`'s try/except (`main.py:99`–`110`): body plus boundary. -/
def get_task_run (lookup : Except String (Option Task)) (user_id : Int) :
    Except HTTPError Task :=
  handlerBoundary (get_task_body lookup user_id)

/-- Body of `update_task` (`main.py:120`–`129`), abstracted over the outcomes
of the awaited `crud.get_task` and `crud.update_task` calls. -/
def update_task_body (lookup : Except String (Option Task))
    (updateResult : Except String Task) (user_id : Int) : Except PyExc Task :=
  match lookup with
  | .error s => .error (.exc s)
  | .ok none => .error (.http ⟨404, "Task not found"⟩)
  | .ok (some task) =>
    if task.owner_id != user_id then
      .error (.http ⟨403, "Not authorized to update this task"⟩)
    else
      match updateResult with
      | .error s => .error (.exc s)
      | .ok t => .ok t

/-- `update_task`'s try/except (`main.py:120`–`134`): body plus boundary. -/
def update_task_run (lookup : Except String (Option Task))
    (updateResult : Except String Task) (user_id : Int) : Except HTTPError Task :=
  handlerBoundary (update_task_body lookup updateResult user_id)

/-- Body of `delete_task` (`main.py:143`–`152`), abstracted over the outcomes
of the awaited `crud.get_task` and `crud.delete_task` calls. -/
def delete_task_body (lookup : Except String (Option Task))
    (deleteResult : Except String Unit) (user_id : Int) : Except PyExc String :=
  match lookup with
  | .error s => .error (.exc s)
  | .ok none => .error (.http ⟨404, "Task not found"⟩)
  | .ok (some task) =>
    if task.owner_id != user_id then
      .error (.http ⟨403, "Not authorized to delete this task"⟩)
    else
      match deleteResult with
      | .error s => .error (.exc s)
      | .ok _ => .ok "Task deleted successfully"

/-- `delete_task`'s try/except (`main.py:143`–`157`): body plus boundary. -/
def delete_task_run (lookup : Except String (Option Task))
    (deleteResult : Except String Unit) (user_id : Int) : Except HTTPError String :=
  handlerBoundary (delete_task_body lookup deleteResult user_id)

/-- `create_task` (`main.py:63`–`75`) against the modelled store: insert with
owner = caller identity, return the created row; the store is threaded
explicitly. -/
def create_task_endpoint (db : DB) (payload : TaskCreate) (user_id : Int) :
    Except HTTPError Task × DB :=
  let p := crudCreateTask db payload user_id
  (.ok p.1, p.2)

/-- `get_tasks` (`main.py:78`–`90`) against the modelled store: the caller's
tasks sliced by skip/limit. -/
def get_tasks_endpoint (db : DB) (skip limit : Nat) (user_id : Int) :
    Except HTTPError (List Task) :=
  .ok (crudGetUserTasks db user_id skip limit)

/-- `get_task` (`main.py:93`–`110`) against the modelled store: the lookup is
the pure `crudGetTask`. -/
def get_task_endpoint (db : DB) (task_id user_id : Int) : Except HTTPError Task :=
  get_task_run (.ok (crudGetTask db task_id)) user_id

/-- `update_task` (`main.py:113`–`134`) against the modelled store: 404/403
checks first, then `crud.update_task`; on any error the store is unchanged. -/
def update_task_endpoint (db : DB) (task_id : Int) (u : TaskUpdate) (user_id : Int) :
    Except HTTPError Task × DB :=
  match crudGetTask db task_id with
  | none => (.error ⟨404, "Task not found"⟩, db)
  | some task =>
    if task.owner_id != user_id then
      (.error ⟨403, "Not authorized to update this task"⟩, db)
    else
      match crudUpdateTask db task_id u with
      | none => (.error ⟨500, "Internal server error"⟩, db)
      | some p => (.ok p.1, p.2)

/-- `delete_task` (`main.py:137`–`157`) against the modelled store: 404/403
checks first, then `crud.delete_task`; on any error the store is unchanged. -/
def delete_task_endpoint (db : DB) (task_id user_id : Int) :
    Except HTTPError String × DB :=
  match crudGetTask db task_id with
  | none => (.error ⟨404, "Task not found"⟩, db)
  | some task =>
    if task.owner_id != user_id then
      (.error ⟨403, "Not authorized to delete this task"⟩, db)
    else
      (.ok "Task deleted successfully", crudDeleteTask db task_id)

/-- `POST /tasks` as served: FastAPI resolves the `X-User-Id` dependency
first; its `HTTPException` aborts the request before the handler body runs. -/
def create_task_route (db : DB) (payload : TaskCreate) (header : Option String) :
    Except HTTPError Task × DB :=
  match get_user_id_from_header header with
  | .error e => (.error e, db)
  | .ok uid => create_task_endpoint db payload uid

/-- `GET /tasks` as served: dependency first, then the handler. -/
def get_tasks_route (db : DB) (skip limit : Nat) (header : Option String) :
    Except HTTPError (List Task) :=
  match get_user_id_from_header header with
  | .error e => .error e
  | .ok uid => get_tasks_endpoint db skip limit uid

/-- `GET /tasks/{id}` as served: dependency first, then the handler. -/
def get_task_route (db : DB) (task_id : Int) (header : Option String) :
    Except HTTPError Task :=
  match get_user_id_from_header header with
  | .error e => .error e
  | .ok uid => get_task_endpoint db task_id uid

/-- `PUT /tasks/{id}` as served: dependency first, then the handler. -/
def update_task_route (db : DB) (task_id : Int) (u : TaskUpdate)
    (header : Option String) : Except HTTPError Task × DB :=
  match get_user_id_from_header header with
  | .error e => (.error e, db)
  | .ok uid => update_task_endpoint db task_id u uid

/-- `DELETE /tasks/{id}` as served: dependency first, then the handler. -/
def delete_task_route (db : DB) (task_id : Int) (header : Option String) :
    Except HTTPError String × DB :=
  match get_user_id_from_header header with
  | .error e => (.error e, db)
  | .ok uid => delete_task_endpoint db task_id uid

/-- Response body of `/health` (`main.py:170`–`174`). -/
structure HealthBody where
  status : String
  database : String
  service : String
deriving DecidableEq, Repr

/-- `health_check` (`main.py:160`–`174`), abstracted over the outcome of the
`SELECT 1` connectivity probe: the handler never raises; it always returns
HTTP 200 with `status = "healthy"` and `database` reflecting the probe. -/
def health_check (probe : Except String Unit) : Nat × HealthBody :=
  let db_status := match probe with | .ok _ => "up" | .error _ => "down"
  (200, ⟨"healthy", db_status, "task-service"⟩)

/-- The exception classes an attempt of the startup loop can raise
(`main.py:37` and `main.py:40`): the three named connection-failure classes
and any other exception. -/
inductive DBExc where
  | operationalError : String → DBExc
  | cannotConnectNow : String → DBExc
  | connectionRefused : String → DBExc
  | otherExc : String → DBExc
deriving DecidableEq, Repr

/-- What the startup sequencer did: attempts made, the sleeps performed (in
seconds, in order), and whether it started (`.ok`) or aborted with
`RuntimeError("Database connection failed")` (`.error`). -/
structure StartupTrace where
  attemptsMade : Nat
  sleeps : List Nat
  result : Except String Unit
deriving DecidableEq, Repr

/-- The `for attempt in range(1, retries + 1) ... else` loop of
`startup_event` (`main.py:30`–`45`), abstracted over each attempt's outcome:
every exception class sleeps `delay` and retries; success breaks; exhaustion
falls to the `else` branch, which raises. -/
def startup_go (outcome : Nat → Except DBExc Unit) (delay : Nat) :
    Nat → Nat → StartupTrace
  | 0, _ => ⟨0, [], .error "Database connection failed"⟩
  | remaining + 1, attempt =>
    match outcome attempt with
    | .ok _ => ⟨1, [], .ok ()⟩
    | .error _ =>
      let rest := startup_go outcome delay remaining (attempt + 1)
      ⟨rest.attemptsMade + 1, delay :: rest.sleeps, rest.result⟩

/-- `startup_event` (`main.py:21`–`45`): retries = 10, delay = 3 seconds,
attempts numbered from 1. -/
def startup_event (outcome : Nat → Except DBExc Unit) : StartupTrace :=
  startup_go outcome 3 10 1

/-- Whether an attempt/probe outcome succeeded. -/
def isOkB {ε α : Type} : Except ε α → Bool
  | .ok _ => true
  | .error _ => false

/-- The status code of an error response, `none` on success. -/
def exceptStatus {α : Type} : Except HTTPError α → Option Nat
  | .error e => some e.status_code
  | .ok _ => none

/-! ### Helper lemmas about the modelled persistence layer -/

/-- In a store whose ids are distinct, looking a member row up by its id
finds exactly that row. -/
theorem find_id_of_mem {l : List Task} {t : Task}
    (hw : (l.map Task.id).Nodup) (ht : t ∈ l) :
    l.find? (fun s => s.id == t.id) = some t := by
  induction l with
  | nil => cases ht
  | cons a l ih =>
    rw [List.map_cons, List.nodup_cons] at hw
    rcases List.mem_cons.mp ht with rfl | hmem
    · exact List.find?_cons_of_pos l (by simp)
    · have hne : a.id ≠ t.id := by
        intro he
        exact hw.1 (he ▸ List.mem_map_of_mem Task.id hmem)
      rw [List.find?_cons_of_neg l (by simpa using hne)]
      exact ih hw.2 hmem

/-- A store member found by id, stated for `crudGetTask`. -/
theorem crudGetTask_of_mem {db : DB} {t : Task}
    (hw : (db.tasks.map Task.id).Nodup) (ht : t ∈ db.tasks) :
    crudGetTask db t.id = some t :=
  find_id_of_mem hw ht

/-- When no row has the requested id, the lookup returns nothing. -/
theorem crudGetTask_eq_none {db : DB} {i : Int}
    (habs : ∀ t ∈ db.tasks, t.id ≠ i) : crudGetTask db i = none := by
  apply List.find?_eq_none.mpr
  intro t ht
  simpa using habs t ht

/-- A task not owned by the caller is in no slice of the caller's list. -/
theorem not_mem_user_tasks {db : DB} {t : Task} {u : Int}
    (hu : t.owner_id ≠ u) (skip limit : Nat) :
    t ∉ crudGetUserTasks db u skip limit := by
  intro hmem
  have h1 : t ∈ db.tasks.filter (fun s => s.owner_id == u) :=
    List.drop_subset _ _ (List.take_subset _ _ hmem)
  exact hu (by simpa using (List.mem_filter.mp h1).2)

/-- A lookup hit owned by someone else sends `get_task` to 403. -/
theorem get_task_endpoint_forbidden {db : DB} {i u : Int} {t : Task}
    (hfind : crudGetTask db i = some t) (hu : t.owner_id ≠ u) :
    get_task_endpoint db i u = .error ⟨403, "Not authorized to access this task"⟩ := by
  simp [get_task_endpoint, get_task_run, get_task_body, handlerBoundary, hfind,
    bne_iff_ne.mpr hu]

/-- A lookup hit owned by someone else sends `update_task` to 403, store
unchanged. -/
theorem update_task_endpoint_forbidden {db : DB} {i u : Int} {t : Task}
    (hfind : crudGetTask db i = some t) (hu : t.owner_id ≠ u) (upd : TaskUpdate) :
    update_task_endpoint db i upd u =
      (.error ⟨403, "Not authorized to update this task"⟩, db) := by
  simp [update_task_endpoint, hfind, bne_iff_ne.mpr hu]

/-- A lookup hit owned by someone else sends `delete_task` to 403, store
unchanged. -/
theorem delete_task_endpoint_forbidden {db : DB} {i u : Int} {t : Task}
    (hfind : crudGetTask db i = some t) (hu : t.owner_id ≠ u) :
    delete_task_endpoint db i u =
      (.error ⟨403, "Not authorized to delete this task"⟩, db) := by
  simp [delete_task_endpoint, hfind, bne_iff_ne.mpr hu]

/-- A lookup miss sends `get_task` to 404, for every caller. -/
theorem get_task_endpoint_notfound {db : DB} {i : Int} (u : Int)
    (hfind : crudGetTask db i = none) :
    get_task_endpoint db i u = .error ⟨404, "Task not found"⟩ := by
  simp [get_task_endpoint, get_task_run, get_task_body, handlerBoundary, hfind]

/-- A lookup miss sends `update_task` to 404, for every caller, store
unchanged. -/
theorem update_task_endpoint_notfound {db : DB} {i : Int} (u : Int)
    (upd : TaskUpdate) (hfind : crudGetTask db i = none) :
    update_task_endpoint db i upd u = (.error ⟨404, "Task not found"⟩, db) := by
  simp [update_task_endpoint, hfind]

/-- A lookup miss sends `delete_task` to 404, for every caller, store
unchanged. -/
theorem delete_task_endpoint_notfound {db : DB} {i : Int} (u : Int)
    (hfind : crudGetTask db i = none) :
    delete_task_endpoint db i u = (.error ⟨404, "Task not found"⟩, db) := by
  simp [delete_task_endpoint, hfind]

/-! ### Helper lemmas about the startup retry loop -/

/-- The loop never makes more attempts than it has fuel. -/
theorem startup_go_attempts_le (f : Nat → Except DBExc Unit) (delay : Nat) :
    ∀ fuel a, (startup_go f delay fuel a).attemptsMade ≤ fuel := by
  intro fuel
  induction fuel with
  | zero => intro a; simp [startup_go]
  | succ n ih =>
    intro a
    cases h : f a with
    | ok v => simp [startup_go, h]
    | error e => simpa [startup_go, h] using ih (a + 1)

/-- When every attempt in range fails, the loop exhausts its fuel, sleeps
after every failure, and falls through to the fatal `else` branch. -/
theorem startup_go_all_fail (f : Nat → Except DBExc Unit) (delay : Nat) :
    ∀ fuel a, (∀ k, a ≤ k → k < a + fuel → isOkB (f k) = false) →
    startup_go f delay fuel a =
      ⟨fuel, List.replicate fuel delay, .error "Database connection failed"⟩ := by
  intro fuel
  induction fuel with
  | zero => intro a _; simp [startup_go]
  | succ n ih =>
    intro a hall
    have h0 : isOkB (f a) = false := hall a le_rfl (by omega)
    cases hfa : f a with
    | ok v => rw [hfa] at h0; simp [isOkB] at h0
    | error e =>
      have hrec := ih (a + 1) (fun k hk1 hk2 => hall k (by omega) (by omega))
      simp [startup_go, hfa, hrec, List.replicate_succ]

/-- When the first success is attempt `k`, the loop stops there, having slept
once per failed attempt before it. -/
theorem startup_go_first_success (f : Nat → Except DBExc Unit) (delay : Nat) :
    ∀ fuel a k, a ≤ k → k < a + fuel → isOkB (f k) = true →
    (∀ j, a ≤ j → j < k → isOkB (f j) = false) →
    startup_go f delay fuel a = ⟨k - a + 1, List.replicate (k - a) delay, .ok ()⟩ := by
  intro fuel
  induction fuel with
  | zero => intro a k h1 h2 _ _; omega
  | succ n ih =>
    intro a k hak hkfuel hok hbefore
    rcases Nat.eq_or_lt_of_le hak with rfl | hlt
    · cases hfa : f a with
      | error e => rw [hfa] at hok; simp [isOkB] at hok
      | ok v => simp [startup_go, hfa]
    · have hf : isOkB (f a) = false := hbefore a le_rfl hlt
      cases hfa : f a with
      | ok v => rw [hfa] at hf; simp [isOkB] at hf
      | error e =>
        have hrec := ih (a + 1) k hlt (by omega) hok
          (fun j hj1 hj2 => hbefore j (by omega) hj2)
        have hka : k - a = (k - (a + 1)) + 1 := by omega
        simp [startup_go, hfa, hrec, hka, List.replicate_succ]

/-- The loop's trace depends only on which attempts succeed, not on which
exception class a failing attempt raised. -/
theorem startup_go_class_blind (f g : Nat → Except DBExc Unit) (delay : Nat)
    (h : ∀ k, isOkB (f k) = isOkB (g k)) :
    ∀ fuel a, startup_go f delay fuel a = startup_go g delay fuel a := by
  intro fuel
  induction fuel with
  | zero => intro a; rfl
  | succ n ih =>
    intro a
    have hk := h a
    cases hfa : f a with
    | ok v =>
      cases hga : g a with
      | ok w => simp [startup_go, hfa, hga]
      | error e => rw [hfa, hga] at hk; simp [isOkB] at hk
    | error e =>
      cases hga : g a with
      | ok w => rw [hfa, hga] at hk; simp [isOkB] at hk
      | error e2 => simp [startup_go, hfa, hga, ih (a + 1)]

/-! ### Sample data for witnesses -/

/-- A concrete task owned by user 1. -/
def sampleTask : Task := ⟨1, 1, "A", "d", "open"⟩

/-- A store holding exactly `sampleTask`. -/
def sampleDB : DB := ⟨[sampleTask], 2⟩

/-- An empty store. -/
def emptyDB : DB := ⟨[], 1⟩

/-- A partial payload supplying only a new title. -/
def sampleUpd : TaskUpdate := ⟨some "B", none, none⟩

/-- A concrete create payload. -/
def samplePayload : TaskCreate := ⟨"A", "d", "open"⟩

/-! ### The claims -/

/-- C1: Ownership exclusivity — for every task `t` in the store and every
caller `u ≠ t.owner_id`, get-one/update/delete on `t.id` return 403 and
leave the store untouched (never returning the task body), and the list
operation never includes `t` for any skip/limit. -/
theorem ownership_exclusivity (db : DB) (t : Task) (u : Int)
    (hw : (db.tasks.map Task.id).Nodup) (ht : t ∈ db.tasks)
    (hu : u ≠ t.owner_id) :
    get_task_endpoint db t.id u = .error ⟨403, "Not authorized to access this task"⟩ ∧
    (∀ upd, update_task_endpoint db t.id upd u =
      (.error ⟨403, "Not authorized to update this task"⟩, db)) ∧
    delete_task_endpoint db t.id u =
      (.error ⟨403, "Not authorized to delete this task"⟩, db) ∧
    (∀ skip limit l, get_tasks_endpoint db skip limit u = .ok l → t ∉ l) := by
  have hfind := crudGetTask_of_mem hw ht
  have hne : t.owner_id ≠ u := fun h => hu h.symm
  refine ⟨get_task_endpoint_forbidden hfind hne,
    fun upd => update_task_endpoint_forbidden hfind hne upd,
    delete_task_endpoint_forbidden hfind hne, ?_⟩
  intro skip limit l hl
  have hle : l = crudGetUserTasks db u skip limit := by
    simpa [get_tasks_endpoint] using hl.symm
  rw [hle]
  exact not_mem_user_tasks hne skip limit

/-- Witness for C1 at a concrete store: user 2 asking for user 1's task. -/
theorem ownership_exclusivity_witness :
    (2 : Int) ≠ sampleTask.owner_id ∧
    get_task_endpoint sampleDB sampleTask.id 2 =
      .error ⟨403, "Not authorized to access this task"⟩ :=
  ⟨by decide,
   (ownership_exclusivity sampleDB sampleTask 2 (by decide) (by decide) (by decide)).1⟩

/-- C2: Not-found precedes ownership — when no row has the requested id,
get-one/update/delete return 404 for every caller identity, so no caller
sees 403 for a nonexistent id. -/
theorem notfound_precedes_ownership (db : DB) (i : Int)
    (habs : ∀ t ∈ db.tasks, t.id ≠ i) (u : Int) :
    get_task_endpoint db i u = .error ⟨404, "Task not found"⟩ ∧
    (∀ upd, update_task_endpoint db i upd u = (.error ⟨404, "Task not found"⟩, db)) ∧
    delete_task_endpoint db i u = (.error ⟨404, "Task not found"⟩, db) := by
  have hfind := crudGetTask_eq_none habs
  exact ⟨get_task_endpoint_notfound u hfind,
    fun upd => update_task_endpoint_notfound u upd hfind,
    delete_task_endpoint_notfound u hfind⟩

/-- Witness for C2 at a concrete store: id 999 does not exist. -/
theorem notfound_precedes_ownership_witness :
    get_task_endpoint sampleDB 999 7 = .error ⟨404, "Task not found"⟩ :=
  (notfound_precedes_ownership sampleDB 999 (by decide) 7).1

/-- C10: Existence disclosure to non-owners — a non-owner's request
distinguishes a store where the id exists with a different owner (403) from
one where it does not exist (404), for get-one, update and delete. -/
theorem existence_disclosure (db1 db2 : DB) (i u : Int) (t : Task)
    (hw1 : (db1.tasks.map Task.id).Nodup) (ht : t ∈ db1.tasks) (hid : t.id = i)
    (hown : t.owner_id ≠ u) (habs : ∀ s ∈ db2.tasks, s.id ≠ i) :
    get_task_endpoint db1 i u = .error ⟨403, "Not authorized to access this task"⟩ ∧
    get_task_endpoint db2 i u = .error ⟨404, "Task not found"⟩ ∧
    get_task_endpoint db1 i u ≠ get_task_endpoint db2 i u ∧
    (∀ upd, (update_task_endpoint db1 i upd u).1 ≠ (update_task_endpoint db2 i upd u).1) ∧
    (delete_task_endpoint db1 i u).1 ≠ (delete_task_endpoint db2 i u).1 := by
  have hfind1 : crudGetTask db1 i = some t := hid ▸ crudGetTask_of_mem hw1 ht
  have hfind2 := crudGetTask_eq_none habs
  have h403 := get_task_endpoint_forbidden hfind1 hown
  have h404 := get_task_endpoint_notfound u hfind2
  refine ⟨h403, h404, ?_, ?_, ?_⟩
  · rw [h403, h404]; simp
  · intro upd
    rw [update_task_endpoint_forbidden hfind1 hown upd,
      update_task_endpoint_notfound u upd hfind2]
    simp
  · rw [delete_task_endpoint_forbidden hfind1 hown,
      delete_task_endpoint_notfound u hfind2]
    simp

/-- Witness for C10: the same request against the two concrete stores. -/
theorem existence_disclosure_witness :
    get_task_endpoint sampleDB 1 2 ≠ get_task_endpoint emptyDB 1 2 :=
  (existence_disclosure sampleDB emptyDB 1 2 sampleTask (by decide) (by decide)
    (by decide) (by decide) (by decide)).2.2.1

/-- A nonempty string is not `isEmpty`. -/
theorem isEmpty_false_of_ne {s : String} (h : s ≠ "") : s.isEmpty = false := by
  by_contra hc
  exact h ((String.isEmpty_iff s).mp (by revert hc; cases s.isEmpty <;> simp))

/-- C3 counterexample: the empty string is a present, non-integer header
value, yet the extractor answers 401 (absent-header behaviour), not the 400
the claim requires for every present non-integer value. -/
theorem identity_extraction_ce :
    pyIntParse "" = none ∧
    get_user_id_from_header (some "") = .error ⟨401, "User ID not provided"⟩ ∧
    exceptStatus (get_user_id_from_header (some "")) ≠ some 400 :=
  ⟨rfl, rfl, by decide⟩

/-- C3 (amended): identity extraction — an absent or empty `X-User-Id`
header fails with 401; a present, nonempty value that does not parse as an
integer fails with 400; otherwise the parsed integer is the caller identity,
and every `/tasks` route both propagates the extractor's failures and runs
its handler under the parsed identity. -/
theorem identity_extraction (s : String) (n : Int) :
    get_user_id_from_header none = .error ⟨401, "User ID not provided"⟩ ∧
    get_user_id_from_header (some "") = .error ⟨401, "User ID not provided"⟩ ∧
    (s ≠ "" → pyIntParse s = none →
      get_user_id_from_header (some s) = .error ⟨400, "Invalid user ID"⟩) ∧
    (s ≠ "" → pyIntParse s = some n → get_user_id_from_header (some s) = .ok n) ∧
    (∀ db p, create_task_route db p none =
      (.error ⟨401, "User ID not provided"⟩, db)) ∧
    (∀ db skip limit, get_tasks_route db skip limit none =
      .error ⟨401, "User ID not provided"⟩) ∧
    (∀ db i, get_task_route db i none = .error ⟨401, "User ID not provided"⟩) ∧
    (∀ db i upd, update_task_route db i upd none =
      (.error ⟨401, "User ID not provided"⟩, db)) ∧
    (∀ db i, delete_task_route db i none =
      (.error ⟨401, "User ID not provided"⟩, db)) ∧
    (s ≠ "" → pyIntParse s = none → ∀ db i,
      get_task_route db i (some s) = .error ⟨400, "Invalid user ID"⟩) ∧
    (s ≠ "" → pyIntParse s = some n → ∀ db i,
      get_task_route db i (some s) = get_task_endpoint db i n) := by
  refine ⟨rfl, rfl, ?_, ?_, fun db p => rfl, fun db skip limit => rfl,
    fun db i => rfl, fun db i upd => rfl, fun db i => rfl, ?_, ?_⟩
  · intro h hp
    simp [get_user_id_from_header, isEmpty_false_of_ne h, hp]
  · intro h hp
    simp [get_user_id_from_header, isEmpty_false_of_ne h, hp]
  · intro h hp db i
    simp [get_task_route, get_user_id_from_header, isEmpty_false_of_ne h, hp]
  · intro h hp db i
    simp [get_task_route, get_user_id_from_header, isEmpty_false_of_ne h, hp]

/-- Witness for C3's amended theorem: the non-integer value "abc" fails with
400 and the integer value "5" is parsed to identity 5. -/
theorem identity_extraction_witness :
    get_user_id_from_header (some "abc") = .error ⟨400, "Invalid user ID"⟩ ∧
    get_user_id_from_header (some "5") = .ok 5 :=
  ⟨(identity_extraction "abc" 0).2.2.1 (by decide) rfl,
   (identity_extraction "5" 5).2.2.2.1 (by decide) rfl⟩

/-- C9: Empty-header edge case — a present-but-empty `X-User-Id` is treated
exactly like an absent one (401, not 400), because `if not x_user_id` tests
Python truthiness; every `/tasks` route behaves identically under the two
headers. -/
theorem empty_header_unauthorized (db : DB) (i : Int) (upd : TaskUpdate)
    (p : TaskCreate) (skip limit : Nat) :
    pyIntParse "" = none ∧
    get_user_id_from_header (some "") = .error ⟨401, "User ID not provided"⟩ ∧
    get_user_id_from_header (some "") ≠ .error ⟨400, "Invalid user ID"⟩ ∧
    get_user_id_from_header (some "") = get_user_id_from_header none ∧
    get_task_route db i (some "") = get_task_route db i none ∧
    update_task_route db i upd (some "") = update_task_route db i upd none ∧
    delete_task_route db i (some "") = delete_task_route db i none ∧
    create_task_route db p (some "") = create_task_route db p none ∧
    get_tasks_route db skip limit (some "") = get_tasks_route db skip limit none :=
  ⟨rfl, rfl, by decide, rfl, rfl, rfl, rfl, rfl, rfl⟩

/-- Witness for C9 at a concrete store. -/
theorem empty_header_unauthorized_witness :
    get_task_route sampleDB 1 (some "") = get_task_route sampleDB 1 none :=
  (empty_header_unauthorized sampleDB 1 sampleUpd samplePayload 0 100).2.2.2.2.1

/-- C4: Error propagation — structured 401/400/403/404 errors produced by
the dependency and the lookup/ownership checks reach the client unchanged
with their specific status, while any other exception raised during handling
is converted at the handler boundary to a constant 500 response whose detail
is independent of the exception. -/
theorem error_propagation (user_id : Int) (s s2 : String) (t : Task) :
    get_task_run (.error s) user_id = .error ⟨500, "Internal server error"⟩ ∧
    (∀ ur, update_task_run (.error s) ur user_id =
      .error ⟨500, "Internal server error"⟩) ∧
    (∀ dr, delete_task_run (.error s) dr user_id =
      .error ⟨500, "Internal server error"⟩) ∧
    get_task_run (.error s) user_id = get_task_run (.error s2) user_id ∧
    get_task_run (.ok none) user_id = .error ⟨404, "Task not found"⟩ ∧
    (∀ ur, update_task_run (.ok none) ur user_id = .error ⟨404, "Task not found"⟩) ∧
    (∀ dr, delete_task_run (.ok none) dr user_id = .error ⟨404, "Task not found"⟩) ∧
    (t.owner_id ≠ user_id → get_task_run (.ok (some t)) user_id =
      .error ⟨403, "Not authorized to access this task"⟩) ∧
    (t.owner_id ≠ user_id → ∀ ur, update_task_run (.ok (some t)) ur user_id =
      .error ⟨403, "Not authorized to update this task"⟩) ∧
    (t.owner_id ≠ user_id → ∀ dr, delete_task_run (.ok (some t)) dr user_id =
      .error ⟨403, "Not authorized to delete this task"⟩) ∧
    (t.owner_id = user_id → get_task_run (.ok (some t)) user_id = .ok t) ∧
    (t.owner_id = user_id → ∀ s3, update_task_run (.ok (some t)) (.error s3) user_id =
      .error ⟨500, "Internal server error"⟩) ∧
    (∀ db i, get_task_route db i none = .error ⟨401, "User ID not provided"⟩) ∧
    (∀ db i h4, h4 ≠ "" → pyIntParse h4 = none →
      get_task_route db i (some h4) = .error ⟨400, "Invalid user ID"⟩) := by
  refine ⟨rfl, fun ur => rfl, fun dr => rfl, rfl, rfl, fun ur => rfl, fun dr => rfl,
    ?_, ?_, ?_, ?_, ?_, fun db i => rfl, ?_⟩
  · intro h
    simp [get_task_run, get_task_body, handlerBoundary, bne_iff_ne.mpr h]
  · intro h ur
    simp [update_task_run, update_task_body, handlerBoundary, bne_iff_ne.mpr h]
  · intro h dr
    simp [delete_task_run, delete_task_body, handlerBoundary, bne_iff_ne.mpr h]
  · intro h
    simp [get_task_run, get_task_body, handlerBoundary, h]
  · intro h s3
    simp [update_task_run, update_task_body, handlerBoundary, h]
  · intro db i h4 hne hp
    simp [get_task_route, get_user_id_from_header, isEmpty_false_of_ne hne, hp]

/-- Witness for C4: a non-owner's structured 403 passes unchanged and an
arbitrary exception becomes the constant 500. -/
theorem error_propagation_witness :
    get_task_run (.ok (some sampleTask)) 2 =
      .error ⟨403, "Not authorized to access this task"⟩ ∧
    get_task_run (.error "boom") 2 = .error ⟨500, "Internal server error"⟩ :=
  ⟨(error_propagation 2 "boom" "x" sampleTask).2.2.2.2.2.2.2.1 (by decide),
   (error_propagation 2 "boom" "x" sampleTask).1⟩

/-- C5: Startup retry policy — at most 10 attempts; the trace depends only
on which attempts succeed, never on the exception class raised (every class
is retryable); if all 10 attempts fail the sequencer sleeps 3 seconds after
every failed attempt and aborts with the fatal error; the first success at
attempt `k` stops the loop there after `k - 1` sleeps of 3 seconds. -/
theorem startup_retry_policy (outcome : Nat → Except DBExc Unit) :
    (startup_event outcome).attemptsMade ≤ 10 ∧
    (∀ g : Nat → Except DBExc Unit, (∀ k, isOkB (outcome k) = isOkB (g k)) →
      startup_event outcome = startup_event g) ∧
    ((∀ k, 1 ≤ k → k ≤ 10 → isOkB (outcome k) = false) →
      startup_event outcome =
        ⟨10, List.replicate 10 3, .error "Database connection failed"⟩) ∧
    (∀ k, 1 ≤ k → k ≤ 10 → isOkB (outcome k) = true →
      (∀ j, 1 ≤ j → j < k → isOkB (outcome j) = false) →
      startup_event outcome = ⟨k, List.replicate (k - 1) 3, .ok ()⟩) := by
  refine ⟨startup_go_attempts_le outcome 3 10 1, ?_, ?_, ?_⟩
  · intro g hg
    exact startup_go_class_blind outcome g 3 hg 10 1
  · intro hall
    exact startup_go_all_fail outcome 3 10 1 (fun k h1 h2 => hall k h1 (by omega))
  · intro k h1 h10 hok hbefore
    have hgo := startup_go_first_success outcome 3 10 1 k h1 (by omega) hok
      (fun j hj1 hj2 => hbefore j hj1 hj2)
    have hk : k - 1 + 1 = k := by omega
    rw [hk] at hgo
    exact hgo

/-- Witness for C5: every attempt failing exhausts the 10 retries and
aborts fatally, with a 3-second sleep after each failure. -/
theorem startup_retry_policy_witness :
    startup_event (fun _ => .error (.otherExc "boom")) =
      ⟨10, List.replicate 10 3, .error "Database connection failed"⟩ :=
  (startup_retry_policy (fun _ => .error (.otherExc "boom"))).2.2.1
    (fun _ _ _ => rfl)

/-- C6: Health check — for every probe outcome the endpoint returns HTTP 200
with `status = "healthy"`, and `database` is `"up"` exactly when the probe
succeeds and `"down"` exactly when it raises; the handler is total, so it
never surfaces an error to the client. -/
theorem health_check_contract (probe : Except String Unit) :
    (health_check probe).1 = 200 ∧
    (health_check probe).2.status = "healthy" ∧
    (health_check probe).2.service = "task-service" ∧
    ((health_check probe).2.database = "up" ↔ isOkB probe = true) ∧
    ((health_check probe).2.database = "down" ↔ isOkB probe = false) := by
  cases probe <;> simp [health_check, isOkB]

/-- Witness for C6: an unreachable database still yields a 200 body, with
`database = "down"`. -/
theorem health_check_contract_witness :
    (health_check (.error "conn refused")).1 = 200 ∧
    (health_check (.error "conn refused")).2.database = "down" :=
  ⟨(health_check_contract (.error "conn refused")).1,
   ((health_check_contract (.error "conn refused")).2.2.2.2).mpr rfl⟩

/-- C7: Partial-update frame — updating an owned task changes exactly the
supplied fields of that row: each supplied field takes the payload's value,
each omitted field (and the immutable id and owner) keeps its prior value,
in both the returned task and the stored row; every other row is kept. -/
theorem partial_update_frame (db : DB) (t : Task) (u : TaskUpdate)
    (hw : (db.tasks.map Task.id).Nodup) (ht : t ∈ db.tasks) :
    ∃ t2 : Task,
      (update_task_endpoint db t.id u t.owner_id).1 = .ok t2 ∧
      t2.id = t.id ∧
      t2.owner_id = t.owner_id ∧
      t2.title = (match u.title with | some v => v | none => t.title) ∧
      t2.description = (match u.description with | some v => v | none => t.description) ∧
      t2.status = (match u.status with | some v => v | none => t.status) ∧
      (update_task_endpoint db t.id u t.owner_id).2.tasks =
        db.tasks.map (fun s => if s.id == t.id then t2 else s) ∧
      crudGetTask (update_task_endpoint db t.id u t.owner_id).2 t.id = some t2 ∧
      (∀ s ∈ db.tasks, s.id ≠ t.id →
        s ∈ (update_task_endpoint db t.id u t.owner_id).2.tasks) := by
  have hfind := crudGetTask_of_mem hw ht
  have hfind2 : db.tasks.find? (fun s => s.id == t.id) = some t := hfind
  have hrun : update_task_endpoint db t.id u t.owner_id =
      (.ok (applyUpdate t u),
       ⟨db.tasks.map (fun s => if s.id == t.id then applyUpdate t u else s),
        db.nextId⟩) := by
    simp [update_task_endpoint, crudUpdateTask, hfind]
  have hpf : ((fun s => Task.id s == t.id) ∘
      (fun s => if s.id == t.id then applyUpdate t u else s)) =
      (fun s => Task.id s == t.id) := by
    funext s
    cases hc : (s.id == t.id) <;> simp [Function.comp, hc, applyUpdate]
  refine ⟨applyUpdate t u, ?_, rfl, rfl, ?_, ?_, ?_, ?_, ?_, ?_⟩
  · rw [hrun]
  · cases hc : u.title <;> simp [applyUpdate, hc]
  · cases hc : u.description <;> simp [applyUpdate, hc]
  · cases hc : u.status <;> simp [applyUpdate, hc]
  · rw [hrun]
  · rw [hrun]
    show List.find? (fun s => s.id == t.id)
      (db.tasks.map (fun s => if s.id == t.id then applyUpdate t u else s)) =
      some (applyUpdate t u)
    rw [List.find?_map, hpf, hfind2]
    simp
  · intro s hs hneq
    rw [hrun]
    have hcf : (s.id == t.id) = false := beq_eq_false_iff_ne.mpr hneq
    exact List.mem_map.mpr ⟨s, hs, by simp [hcf]⟩

/-- Witness for C7: supplying only a title changes only the title. -/
theorem partial_update_frame_witness :
    (update_task_endpoint sampleDB sampleTask.id sampleUpd sampleTask.owner_id).1 =
      .ok ⟨1, 1, "B", "d", "open"⟩ := by
  obtain ⟨t2, h1, hid2, hown2, htl, hds, hst, -, -, -⟩ :=
    partial_update_frame sampleDB sampleTask sampleUpd (by decide) (by decide)
  have ht2 : t2 = ⟨1, 1, "B", "d", "open"⟩ := by
    cases t2
    simp_all [sampleTask, sampleUpd]
  rw [h1, ht2]

/-- C8: Create/get round-trip — creating a task as `u` and immediately
fetching the returned id as `u` succeeds and yields the created task: its
mutable fields equal the payload's, its owner is `u`, and its id is the
generated one. -/
theorem create_get_roundtrip (db : DB) (p : TaskCreate) (u : Int)
    (hfresh : ∀ t ∈ db.tasks, t.id ≠ db.nextId) :
    ∃ t : Task,
      (create_task_endpoint db p u).1 = .ok t ∧
      t.id = db.nextId ∧ t.owner_id = u ∧
      t.title = p.title ∧ t.description = p.description ∧ t.status = p.status ∧
      get_task_endpoint (create_task_endpoint db p u).2 t.id u = .ok t := by
  refine ⟨⟨db.nextId, u, p.title, p.description, p.status⟩,
    rfl, rfl, rfl, rfl, rfl, rfl, ?_⟩
  have hnone : db.tasks.find? (fun s => s.id == db.nextId) = none := by
    apply List.find?_eq_none.mpr
    intro s hs
    simpa using hfresh s hs
  simp [get_task_endpoint, get_task_run, get_task_body, handlerBoundary,
    crudGetTask, create_task_endpoint, crudCreateTask, List.find?_append,
    List.find?_singleton, hnone]

/-- Witness for C8: creating into the empty store. -/
theorem create_get_roundtrip_witness :
    (create_task_endpoint emptyDB samplePayload 1).1 = .ok ⟨1, 1, "A", "d", "open"⟩ := by
  obtain ⟨t, h1, hid, hown, htl, hds, hst, -⟩ :=
    create_get_roundtrip emptyDB samplePayload 1 (by decide)
  have ht : t = ⟨1, 1, "A", "d", "open"⟩ := by
    cases t
    simp_all [emptyDB, samplePayload]
  rw [h1, ht]

end TaskService
